import Mathlib

/-!
Verification development for the Bluesky DM reply bot
(`src/bluesky-dm.ts`, `src/types.ts`).

The TypeScript source is shallowly embedded below:
* pure helpers become Lean functions;
* the Cloudflare KV namespace `BOT_CONFIG` becomes an explicit `Store`
  (the typed view of its two kinds of keys: the JSON blob under `config`
  and the `replied:<did>` markers with absolute expiry timestamps);
* external collaborators (the Bluesky chat API, `crypto.subtle`'s
  SHA-256 / HMAC, `Intl.Segmenter`) are parameters: the paginated
  conversation listing is a list of pages, send success is an oracle
  keyed by conversation id, hashing and MAC are abstract functions, and
  a text is a list of grapheme clusters;
* `async` functions become plain functions with explicit state passing.
-/

namespace DmBot

/-! ## Text handling (`bluesky-dm.ts`)

`Intl.Segmenter` splits a JS string into grapheme clusters.  A text is
modelled as the list of its grapheme clusters; each cluster carries a
flag saying whether it is a whitespace cluster (so that
`String.prototype.trim`, which strips leading/trailing whitespace, is
representable) and an opaque tag distinguishing clusters. -/

structure Grapheme where
  ws : Bool
  tag : Nat
deriving DecidableEq, Repr

/-- `DM_MAX_GRAPHEMES = 1000` (`bluesky-dm.ts` line 7). -/
def DM_MAX_GRAPHEMES : Nat := 1000

/-- `truncateMessage` (`bluesky-dm.ts` lines 9-14): if the segment list
has at most 1000 elements return the text unchanged, else keep the
first 1000 grapheme clusters. -/
def truncateMessage (text : List Grapheme) : List Grapheme :=
  if text.length ≤ DM_MAX_GRAPHEMES then text else text.take DM_MAX_GRAPHEMES

/-- `String.prototype.trim` at the grapheme level: drop leading and
trailing whitespace clusters. -/
def trimGraphemes (text : List Grapheme) : List Grapheme :=
  ((text.dropWhile (fun g => g.ws)).reverse.dropWhile (fun g => g.ws)).reverse

/-- The text actually sent by `sendMessage` (`bluesky-dm.ts` line 115):
`const safeText = truncateMessage(text.trim());`. -/
def sendMessageText (text : List Grapheme) : List Grapheme :=
  truncateMessage (trimGraphemes text)

/-- JS `String.prototype.trim` on plain strings: strip leading and
trailing whitespace characters. -/
def trimString (s : String) : String :=
  ⟨((s.data.dropWhile Char.isWhitespace).reverse.dropWhile Char.isWhitespace).reverse⟩

/-! ## Conversation data model (`bluesky-dm.ts`) -/

/-- `ConvoParticipant` (`bluesky-dm.ts` lines 16-19). -/
structure ConvoParticipant where
  did : String
  handle : Option String
deriving DecidableEq, Repr

/-- `ConvoLastMessage` (`bluesky-dm.ts` lines 21-26); `sender.did`
flattened to `senderDid`. -/
structure ConvoLastMessage where
  id : String
  text : String
  sentAt : String
  senderDid : String
deriving DecidableEq, Repr

/-- `Convo` (`bluesky-dm.ts` lines 28-32). -/
structure Convo where
  id : String
  members : Option (List ConvoParticipant)
  lastMessage : Option ConvoLastMessage
deriving DecidableEq, Repr

/-- `BlueskyDmClient.getOtherParticipantDid` (`bluesky-dm.ts` lines
95-100).  `this.ourDid` is the `Option String` set by `login`
(`data.did || null`); the JS truthiness checks `!ourDid` and
`other?.did || null` make the empty string behave like `null`. -/
def getOtherParticipantDid (ourDid : Option String) (convo : Convo) : Option String :=
  match ourDid, convo.members with
  | some od, some ms =>
    if od = "" then none
    else
      match ms.find? (fun m => m.did != od) with
      | some other => if other.did = "" then none else some other.did
      | none => none
  | _, _ => none

/-- `BlueskyDmClient.isLastMessageFromOther` (`bluesky-dm.ts` lines
105-109): `false` when there is no last message or no own DID,
otherwise whether the last sender differs from us. -/
def isLastMessageFromOther (ourDid : Option String) (convo : Convo) : Bool :=
  match convo.lastMessage, ourDid with
  | some last, some od => od != "" && last.senderDid != od
  | _, _ => false

/-! ## Configuration (`types.ts`) -/

/-- `BotConfig` (`types.ts` lines 11-20).  `messageDelaySeconds` is
total because `getConfig` fills the default `0` at parse time. -/
structure BotConfig where
  welcomeMessage : String
  enabled : Bool
  messageDelaySeconds : Int
  adminPasswordHash : Option String
  setupComplete : Bool
deriving DecidableEq, Repr

/-- `DEFAULT_WELCOME` (`types.ts` line 27). -/
def DEFAULT_WELCOME : String := "Hi! Thanks for reaching out. How can I help you today?"

/-- `MAX_DELAY_SECONDS = 300` (`types.ts` line 28). -/
def MAX_DELAY_SECONDS : Int := 300

/-- `clampDelay` (`types.ts` lines 30-32):
`Math.min(300, Math.max(0, Math.round(Number(val)) || 0))`.  JS numbers
are modelled as integers, on which `Math.round` is the identity and
`|| 0` changes nothing (it only rewrites `0` to `0`, or `NaN`, which an
integer cannot be, to `0`). -/
def clampDelay (val : Int) : Int :=
  min MAX_DELAY_SECONDS (max 0 val)

/-- `getConfig` (`types.ts` lines 34-47).  The argument is the typed
view of the raw JSON under the `config` key: `none` when the key is
absent (or the stored string is empty), `some parsed` otherwise.  The
parsed record already carries `messageDelaySeconds` (line 45 fills the
default `0` when the field is missing). -/
def getConfig (raw : Option BotConfig) : BotConfig :=
  match raw with
  | none =>
    { welcomeMessage := DEFAULT_WELCOME
      enabled := false
      messageDelaySeconds := 0
      adminPasswordHash := none
      setupComplete := false }
  | some parsed => parsed

/-! ## KV store: ledger of `replied:<did>` keys

KV `put` with `expirationTtl` makes the key unreadable once the expiry
passes; the ledger maps each key to its absolute expiry second, and a
`get` at time `now` is truthy exactly when a live entry exists. -/

abbrev Ledger := List (String × Nat)

/-- Typed view of the `BOT_CONFIG` KV namespace: the `config` key and
the `replied:`-prefixed keys. -/
structure Store where
  config : Option BotConfig
  ledger : Ledger
deriving DecidableEq, Repr

/-- KV `get` of a replied-marker at time `now` (truthiness of the
stored `'1'`): true iff a non-expired entry exists. -/
def ledgerGet (l : Ledger) (now : Nat) (key : String) : Bool :=
  match l.lookup key with
  | some expiresAt => decide (now < expiresAt)
  | none => false

/-- KV `put` (`types.ts` line 186): record the key with its absolute
expiry; a prepended entry shadows any stale one under `List.lookup`. -/
def ledgerPut (l : Ledger) (key : String) (expiresAt : Nat) : Ledger :=
  (key, expiresAt) :: l

/-- `` `${REPLIED_PREFIX}${otherDid}` `` (`types.ts` lines 26 and 176). -/
def repliedKey (did : String) : String := "replied:" ++ did

/-- `expirationTtl: 60 * 60 * 24 * 365` (`types.ts` line 186). -/
def REPLIED_TTL : Nat := 60 * 60 * 24 * 365

/-! ## The dispatch cycle (`types.ts` lines 145-195) -/

/-- The environment variables the cycle reads (`BSKY_HANDLE`,
`BSKY_APP_PASSWORD`); the empty string models an unset variable. -/
structure CycleEnv where
  bskyHandle : String
  bskyAppPassword : String
deriving DecidableEq, Repr

/-- The mutable state of one cycle: the ledger portion of the KV
namespace, the conversations successfully replied to (in send order),
and `repliedCount`. -/
structure CycleState where
  ledger : Ledger
  sent : List Convo
  repliedCount : Nat
deriving DecidableEq, Repr

/-- Result of `runDmReplyCycle`: final ledger, successful sends,
`repliedCount`, and how many pages of conversations were fetched. -/
structure CycleResult where
  ledger : Ledger
  sent : List Convo
  repliedCount : Nat
  pagesListed : Nat
deriving DecidableEq, Repr

/-- `welcomeMsg` (`types.ts` line 161):
`config.welcomeMessage?.trim() || DEFAULT_WELCOME`. -/
def cycleWelcomeMsg (config : BotConfig) : String :=
  if trimString config.welcomeMessage = "" then DEFAULT_WELCOME
  else trimString config.welcomeMessage

/-- `delay` (`types.ts` line 162):
`Math.min(MAX_DELAY_SECONDS, Math.max(0, config.messageDelaySeconds ?? 0))`. -/
def cycleDelay (config : BotConfig) : Int :=
  min MAX_DELAY_SECONDS (max 0 config.messageDelaySeconds)

/-- Body of the `for (const convo of convos)` loop (`types.ts` lines
171-189).  `sendOk` is the send oracle: whether
`client.sendMessage(convo.id, welcomeMsg)` reports success.  The
`setTimeout` sleep before the send has no further semantic effect. -/
def processConvo (ourDid : Option String) (sendOk : String → Bool) (now : Nat)
    (st : CycleState) (convo : Convo) : CycleState :=
  match getOtherParticipantDid ourDid convo with
  | none => st
  | some otherDid =>
    if isLastMessageFromOther ourDid convo then
      if ledgerGet st.ledger now (repliedKey otherDid) then st
      else if sendOk convo.id then
        { ledger := ledgerPut st.ledger (repliedKey otherDid) (now + REPLIED_TTL)
          sent := st.sent ++ [convo]
          repliedCount := st.repliedCount + 1 }
      else st
    else st

/-- The `do … while (cursor)` pagination loop (`types.ts` lines
167-190): each `listConvos` response is one page; the inner `for` loop
folds `processConvo` over the page. -/
def runPages (ourDid : Option String) (sendOk : String → Bool) (now : Nat)
    (st : CycleState) (pages : List (List Convo)) : CycleState :=
  pages.foldl (fun acc page => page.foldl (processConvo ourDid sendOk now) acc) st

/-- `runDmReplyCycle` (`types.ts` lines 145-195).  Parameters for the
external collaborators: `ourDid` is what `login` stored
(`data.did || null`), `sendOk` is the send-success oracle, `pages` the
successive `listConvos` responses, `now` the current epoch second. -/
def runDmReplyCycle (env : CycleEnv) (ourDid : Option String) (sendOk : String → Bool)
    (pages : List (List Convo)) (now : Nat) (store : Store) : CycleResult :=
  let config := getConfig store.config
  if !config.enabled then
    { ledger := store.ledger, sent := [], repliedCount := 0, pagesListed := 0 }
  else if env.bskyHandle = "" ∨ env.bskyAppPassword = "" then
    { ledger := store.ledger, sent := [], repliedCount := 0, pagesListed := 0 }
  else
    let st := runPages ourDid sendOk now
      { ledger := store.ledger, sent := [], repliedCount := 0 } pages
    { ledger := st.ledger, sent := st.sent, repliedCount := st.repliedCount
      pagesListed := pages.length }

/-! ## Sessions (`types.ts` lines 67-123)

A session token is `base64(JSON{exp}) + "." + base64url(HMAC(secret,
data))`; the base64/JSON round-trip is modelled away, leaving the
payload `exp` and the signature.  `mac secret exp` abstracts
HMAC-SHA-256 of the serialized payload; `crypto.subtle.verify`
recomputes it and compares. -/

/-- `SESSION_TTL_SEC = 7 * 24 * 60 * 60` (`types.ts` line 68). -/
def SESSION_TTL_SEC : Int := 7 * 24 * 60 * 60

/-- A decoded session token: payload expiry and signature. -/
structure SessionToken where
  exp : Int
  sig : Nat
deriving DecidableEq, Repr

/-- `createSession` (`types.ts` lines 81-98): payload
`{exp: now + SESSION_TTL_SEC}` signed with the secret. -/
def createSession (mac : String → Int → Nat) (secret : String) (now : Int) : SessionToken :=
  { exp := now + SESSION_TTL_SEC, sig := mac secret (now + SESSION_TTL_SEC) }

/-- `verifySession` (`types.ts` lines 100-123): reject if
`payload.exp < now` (line 106), then check the signature against the
secret. -/
def verifySession (mac : String → Int → Nat) (token : SessionToken) (secret : String)
    (now : Int) : Bool :=
  if token.exp < now then false
  else decide (mac secret token.exp = token.sig)

/-! ## Admin routing (`types.ts` lines 219-358) -/

/-- The JSON request body; every admin endpoint reads a subset of these
optional fields. -/
structure AdminBody where
  adminPassword : Option String
  welcomeMessage : Option String
  enabled : Option Bool
  messageDelaySeconds : Option Int
  password : Option String
deriving DecidableEq, Repr

/-- An admin HTTP request: `path` is `url.pathname` with the leading
`/admin` already sliced off (`types.ts` line 225), `sessionToken` the
decoded `admin_session` cookie if present. -/
structure AdminRequest where
  path : String
  method : String
  body : AdminBody
  sessionToken : Option SessionToken
deriving DecidableEq, Repr

/-- The responses `handleAdmin` can produce. -/
inductive AdminResponse where
  | setupWizardHtml
  | loginHtml
  | adminPageHtml
  | jsonOk
  | jsonConfig (welcomeMessage : String) (enabled : Bool) (messageDelaySeconds : Int)
  | jsonError (status : Nat)
  | loginRedirect (token : SessionToken)
  | logoutRedirect
  | notFound
  | methodNotAllowed
deriving DecidableEq, Repr

/-- `handleAdmin` (`types.ts` lines 219-358), branch for branch in
source order.  `hashFn` abstracts SHA-256 (`hashPassword`), `mac` the
session HMAC, `secretOpt` is `env.ADMIN_SESSION_SECRET`, `now` the
current epoch second.  Returns the response and the updated store. -/
def handleAdmin (hashFn : String → String) (mac : String → Int → Nat) (now : Int)
    (secretOpt : Option String) (store : Store) (req : AdminRequest) :
    AdminResponse × Store :=
  let path := if req.path = "" then "/" else req.path
  let config := getConfig store.config
  if ¬config.setupComplete ∧ path ≠ "/setup" ∧ ¬path.startsWith "/api/" then
    (AdminResponse.setupWizardHtml, store)
  else if path = "/api/setup" ∧ req.method = "POST" then
    let password := trimString (req.body.adminPassword.getD "")
    if password.length < 8 then (AdminResponse.jsonError 400, store)
    else
      let welcome0 :=
        match req.body.welcomeMessage with
        | some w => if w = "" then DEFAULT_WELCOME else w
        | none => DEFAULT_WELCOME
      let welcomeMessage := if trimString welcome0 = "" then DEFAULT_WELCOME
        else trimString welcome0
      let newConfig : BotConfig :=
        { config with
          welcomeMessage := welcomeMessage
          enabled := req.body.enabled.getD false
          messageDelaySeconds := clampDelay (req.body.messageDelaySeconds.getD 0)
          adminPasswordHash := some (hashFn password)
          setupComplete := true }
      (AdminResponse.jsonOk, { store with config := some newConfig })
  else if ¬config.setupComplete then
    (AdminResponse.setupWizardHtml, store)
  else
    match secretOpt with
    | none => (AdminResponse.jsonError 503, store)
    | some secret =>
      let isAuthenticated :=
        match req.sessionToken with
        | some tok => verifySession mac tok secret now
        | none => false
      if path = "/login" ∧ req.method = "POST" then
        let password := req.body.password.getD ""
        match config.adminPasswordHash with
        | none => (AdminResponse.jsonError 401, store)
        | some hash =>
          if hashFn password = hash then
            (AdminResponse.loginRedirect (createSession mac secret now), store)
          else (AdminResponse.jsonError 401, store)
      else if path = "/logout" ∧ req.method = "GET" then
        (AdminResponse.logoutRedirect, store)
      else if path = "/api/config" then
        if !isAuthenticated then (AdminResponse.jsonError 401, store)
        else if req.method = "GET" then
          (AdminResponse.jsonConfig config.welcomeMessage config.enabled
            config.messageDelaySeconds, store)
        else if req.method = "POST" then
          let w0 := req.body.welcomeMessage.getD config.welcomeMessage
          let welcomeMessage := if trimString w0 = "" then DEFAULT_WELCOME
            else trimString w0
          let newConfig : BotConfig :=
            { config with
              welcomeMessage := welcomeMessage
              enabled := req.body.enabled.getD config.enabled
              messageDelaySeconds :=
                match req.body.messageDelaySeconds with
                | some v => clampDelay v
                | none => config.messageDelaySeconds }
          (AdminResponse.jsonOk, { store with config := some newConfig })
        else (AdminResponse.methodNotAllowed, store)
      else if path = "/api/toggle" ∧ req.method = "POST" then
        if !isAuthenticated then (AdminResponse.jsonError 401, store)
        else
          let newConfig : BotConfig := { config with enabled := req.body.enabled.getD (!config.enabled) }
          (AdminResponse.jsonOk, { store with config := some newConfig })
      else if (path = "/" ∨ path = "") ∧ req.method = "GET" then
        if !isAuthenticated then (AdminResponse.loginHtml, store)
        else (AdminResponse.adminPageHtml, store)
      else (AdminResponse.notFound, store)

/-! ## Concrete instances used to evaluate the code on explicit inputs -/

/-- The bot's own DID as returned by `login`. -/
def botDid : String := "did:plc:bot"

/-- A correspondent DID. -/
def aliceDid : String := "did:plc:alice"

/-- Another correspondent DID. -/
def carolDid : String := "did:plc:carol"

/-- A conversation whose last message is from Alice (first contact
pending). -/
def convoAlice : Convo :=
  { id := "convo-alice"
    members := some [{ did := botDid, handle := none }, { did := aliceDid, handle := none }]
    lastMessage := some { id := "m1", text := "hi", sentAt := "2026-01-01", senderDid := aliceDid } }

/-- A conversation whose last message is from Carol (first contact
pending). -/
def convoCarol : Convo :=
  { id := "convo-carol"
    members := some [{ did := botDid, handle := none }, { did := carolDid, handle := none }]
    lastMessage := some { id := "m2", text := "hello", sentAt := "2026-01-02", senderDid := carolDid } }

/-- A conversation whose last message was sent by the bot itself. -/
def convoFromBot : Convo :=
  { id := "convo-bot-last"
    members := some [{ did := botDid, handle := none }, { did := aliceDid, handle := none }]
    lastMessage := some { id := "m3", text := "our reply", sentAt := "2026-01-03", senderDid := botDid } }

/-- A conversation with no last-message record. -/
def convoNoMessages : Convo :=
  { id := "convo-empty"
    members := some [{ did := botDid, handle := none }, { did := aliceDid, handle := none }]
    lastMessage := none }

/-- Environment with both Bluesky credentials set. -/
def envReady : CycleEnv := { bskyHandle := "bot.example", bskyAppPassword := "app-pass" }

/-- An enabled, fully set-up configuration. -/
def enabledConfig : BotConfig :=
  { welcomeMessage := "Welcome!"
    enabled := true
    messageDelaySeconds := 0
    adminPasswordHash := some "pw-hash"
    setupComplete := true }

/-- Store holding `enabledConfig` and an empty ledger. -/
def freshEnabledStore : Store := { config := some enabledConfig, ledger := [] }

/-- Concrete stand-in for SHA-256 in evaluations of `handleAdmin`. -/
def sha256Model (s : String) : String := "sha256:" ++ s

/-- Concrete stand-in for HMAC-SHA-256 in evaluations. -/
def macModel (secret : String) (payloadExp : Int) : Nat :=
  secret.length + payloadExp.toNat

/-- A configuration after setup has completed, with an admin password
hash already stored. -/
def doneConfig : BotConfig :=
  { welcomeMessage := "Welcome!"
    enabled := true
    messageDelaySeconds := 3
    adminPasswordHash := some (sha256Model "oldpassword")
    setupComplete := true }

/-- Store holding `doneConfig`. -/
def doneStore : Store := { config := some doneConfig, ledger := [] }

/-- An unauthenticated `POST /admin/api/setup` request arriving after
setup has completed. -/
def setupAfterDoneReq : AdminRequest :=
  { path := "/api/setup"
    method := "POST"
    body := { adminPassword := some "newpassword1", welcomeMessage := none, enabled := none
              messageDelaySeconds := none, password := none }
    sessionToken := none }

/-- A whitespace grapheme cluster. -/
def wsGrapheme : Grapheme := { ws := true, tag := 0 }

/-- A non-whitespace grapheme cluster. -/
def letterGrapheme : Grapheme := { ws := false, tag := 1 }

/-- A 1200-grapheme reply text whose first cluster is whitespace. -/
def paddedText1200 : List Grapheme := wsGrapheme :: List.replicate 1199 letterGrapheme

/-- A 1200-grapheme reply text with no leading/trailing whitespace. -/
def plainText1200 : List Grapheme := List.replicate 1200 letterGrapheme

/-! ## Helper lemmas -/

theorem ledgerGet_put_self (l : Ledger) (now : Nat) (key : String) :
    ledgerGet (ledgerPut l key (now + REPLIED_TTL)) now key = true := by
  simp [ledgerGet, ledgerPut, List.lookup_cons_self, REPLIED_TTL]

theorem ledgerGet_put_mono (l : Ledger) (now : Nat) (k key : String)
    (h : ledgerGet l now k = true) :
    ledgerGet (ledgerPut l key (now + REPLIED_TTL)) now k = true := by
  by_cases hk : k = key
  · subst hk; exact ledgerGet_put_self l now k
  · have hb : (k == key) = false := by simp [hk]
    simpa [ledgerGet, ledgerPut, List.lookup, hb] using h

theorem processConvo_live_mono (ourDid : Option String) (sendOk : String → Bool)
    (now : Nat) (st : CycleState) (c : Convo) (k : String)
    (h : ledgerGet st.ledger now k = true) :
    ledgerGet (processConvo ourDid sendOk now st c).ledger now k = true := by
  cases hg : getOtherParticipantDid ourDid c with
  | none => simpa [processConvo, hg] using h
  | some d =>
    cases hl : isLastMessageFromOther ourDid c with
    | false => simpa [processConvo, hg, hl] using h
    | true =>
      cases hlive : ledgerGet st.ledger now (repliedKey d) with
      | true => simpa [processConvo, hg, hl, hlive] using h
      | false =>
        cases hs : sendOk c.id with
        | false => simpa [processConvo, hg, hl, hlive, hs] using h
        | true =>
          simp only [processConvo, hg, hl, hlive, hs, Bool.false_eq_true, if_false, if_true]
          exact ledgerGet_put_mono st.ledger now k (repliedKey d) h

theorem processConvo_post (ourDid : Option String) (sendOk : String → Bool)
    (now : Nat) (st : CycleState) (c : Convo) (d : String)
    (hg : getOtherParticipantDid ourDid c = some d)
    (hl : isLastMessageFromOther ourDid c = true)
    (hs : sendOk c.id = true) :
    ledgerGet (processConvo ourDid sendOk now st c).ledger now (repliedKey d) = true := by
  cases hlive : ledgerGet st.ledger now (repliedKey d) with
  | true => simp [processConvo, hg, hl, hlive]
  | false =>
    simp only [processConvo, hg, hl, hlive, hs, Bool.false_eq_true, if_false, if_true]
    exact ledgerGet_put_self st.ledger now (repliedKey d)

theorem processConvo_noop (ourDid : Option String) (sendOk : String → Bool)
    (now : Nat) (st : CycleState) (c : Convo)
    (hcov : ∀ d : String, getOtherParticipantDid ourDid c = some d →
      isLastMessageFromOther ourDid c = true → sendOk c.id = true →
      ledgerGet st.ledger now (repliedKey d) = true) :
    processConvo ourDid sendOk now st c = st := by
  cases hg : getOtherParticipantDid ourDid c with
  | none => simp [processConvo, hg]
  | some d =>
    cases hl : isLastMessageFromOther ourDid c with
    | false => simp [processConvo, hg, hl]
    | true =>
      cases hlive : ledgerGet st.ledger now (repliedKey d) with
      | true => simp [processConvo, hg, hl, hlive]
      | false =>
        have hs : sendOk c.id = false := by
          cases hb : sendOk c.id
          · rfl
          · rw [hcov d hg hl hb] at hlive; exact absurd hlive (by simp)
        simp [processConvo, hg, hl, hlive, hs]

theorem processConvo_sent_mem (ourDid : Option String) (sendOk : String → Bool)
    (now : Nat) (st : CycleState) (c x : Convo)
    (h : x ∈ (processConvo ourDid sendOk now st c).sent) :
    x ∈ st.sent ∨
      (x = c ∧ isLastMessageFromOther ourDid c = true ∧ sendOk c.id = true ∧
        (getOtherParticipantDid ourDid c).isSome = true) := by
  cases hg : getOtherParticipantDid ourDid c with
  | none => rw [processConvo, hg] at h; exact Or.inl h
  | some d =>
    cases hl : isLastMessageFromOther ourDid c with
    | false => simp only [processConvo, hg, hl, Bool.false_eq_true, if_false] at h; exact Or.inl h
    | true =>
      cases hlive : ledgerGet st.ledger now (repliedKey d) with
      | true => simp only [processConvo, hg, hl, hlive, if_true] at h; exact Or.inl h
      | false =>
        cases hs : sendOk c.id with
        | false =>
          simp only [processConvo, hg, hl, hlive, hs, Bool.false_eq_true, if_false, if_true] at h
          exact Or.inl h
        | true =>
          simp only [processConvo, hg, hl, hlive, hs, Bool.false_eq_true, if_false, if_true] at h
          rcases List.mem_append.mp h with h1 | h1
          · exact Or.inl h1
          · exact Or.inr ⟨List.mem_singleton.mp h1, rfl, rfl, rfl⟩

theorem foldl_live_mono (ourDid : Option String) (sendOk : String → Bool) (now : Nat)
    (l : List Convo) : ∀ (st : CycleState) (k : String),
    ledgerGet st.ledger now k = true →
    ledgerGet (l.foldl (processConvo ourDid sendOk now) st).ledger now k = true := by
  induction l with
  | nil => intro st k h; exact h
  | cons a t ih =>
    intro st k h
    rw [List.foldl_cons]
    exact ih _ k (processConvo_live_mono ourDid sendOk now st a k h)

theorem foldl_post (ourDid : Option String) (sendOk : String → Bool) (now : Nat)
    (l : List Convo) : ∀ (st : CycleState) (c : Convo) (d : String), c ∈ l →
    getOtherParticipantDid ourDid c = some d → isLastMessageFromOther ourDid c = true →
    sendOk c.id = true →
    ledgerGet (l.foldl (processConvo ourDid sendOk now) st).ledger now (repliedKey d) = true := by
  induction l with
  | nil => intro st c d hmem; exact absurd hmem (List.not_mem_nil c)
  | cons a t ih =>
    intro st c d hmem hg hl hs
    rw [List.foldl_cons]
    rcases List.mem_cons.mp hmem with rfl | hmem'
    · exact foldl_live_mono ourDid sendOk now t _ _ (processConvo_post ourDid sendOk now st c d hg hl hs)
    · exact ih _ c d hmem' hg hl hs

theorem foldl_sent_mem (ourDid : Option String) (sendOk : String → Bool) (now : Nat)
    (l : List Convo) : ∀ (st : CycleState) (x : Convo),
    x ∈ (l.foldl (processConvo ourDid sendOk now) st).sent →
    x ∈ st.sent ∨
      (x ∈ l ∧ isLastMessageFromOther ourDid x = true ∧ sendOk x.id = true ∧
        (getOtherParticipantDid ourDid x).isSome = true) := by
  induction l with
  | nil => intro st x h; exact Or.inl h
  | cons a t ih =>
    intro st x h
    rw [List.foldl_cons] at h
    rcases ih _ x h with h1 | ⟨hm, h2⟩
    · rcases processConvo_sent_mem ourDid sendOk now st a x h1 with h3 | ⟨rfl, h4⟩
      · exact Or.inl h3
      · exact Or.inr ⟨List.mem_cons_self _ _, h4⟩
    · exact Or.inr ⟨List.mem_cons_of_mem _ hm, h2⟩

theorem foldl_noop (ourDid : Option String) (sendOk : String → Bool) (now : Nat)
    (l : List Convo) : ∀ (st : CycleState),
    (∀ c ∈ l, ∀ d : String, getOtherParticipantDid ourDid c = some d →
      isLastMessageFromOther ourDid c = true → sendOk c.id = true →
      ledgerGet st.ledger now (repliedKey d) = true) →
    l.foldl (processConvo ourDid sendOk now) st = st := by
  induction l with
  | nil => intro st _; rfl
  | cons a t ih =>
    intro st hcov
    have ha : processConvo ourDid sendOk now st a = st :=
      processConvo_noop ourDid sendOk now st a (hcov a (List.mem_cons_self a t))
    rw [List.foldl_cons, ha]
    exact ih st (fun c hc => hcov c (List.mem_cons_of_mem a hc))

theorem runPages_live_mono (ourDid : Option String) (sendOk : String → Bool) (now : Nat)
    (pages : List (List Convo)) : ∀ (st : CycleState) (k : String),
    ledgerGet st.ledger now k = true →
    ledgerGet (runPages ourDid sendOk now st pages).ledger now k = true := by
  induction pages with
  | nil => intro st k h; exact h
  | cons p ps ih =>
    intro st k h
    rw [runPages, List.foldl_cons]
    exact ih _ k (foldl_live_mono ourDid sendOk now p st k h)

theorem runPages_post (ourDid : Option String) (sendOk : String → Bool) (now : Nat)
    (pages : List (List Convo)) : ∀ (st : CycleState) (page : List Convo) (c : Convo)
    (d : String), page ∈ pages → c ∈ page →
    getOtherParticipantDid ourDid c = some d → isLastMessageFromOther ourDid c = true →
    sendOk c.id = true →
    ledgerGet (runPages ourDid sendOk now st pages).ledger now (repliedKey d) = true := by
  induction pages with
  | nil => intro st page c d hp; exact absurd hp (List.not_mem_nil page)
  | cons p ps ih =>
    intro st page c d hp hc hg hl hs
    rw [runPages, List.foldl_cons]
    rcases List.mem_cons.mp hp with rfl | hp'
    · exact runPages_live_mono ourDid sendOk now ps _ _
        (foldl_post ourDid sendOk now page st c d hc hg hl hs)
    · exact ih _ page c d hp' hc hg hl hs

theorem runPages_sent_mem (ourDid : Option String) (sendOk : String → Bool) (now : Nat)
    (pages : List (List Convo)) : ∀ (st : CycleState) (x : Convo),
    x ∈ (runPages ourDid sendOk now st pages).sent →
    x ∈ st.sent ∨
      ((∃ page, page ∈ pages ∧ x ∈ page) ∧ isLastMessageFromOther ourDid x = true ∧
        sendOk x.id = true ∧ (getOtherParticipantDid ourDid x).isSome = true) := by
  induction pages with
  | nil => intro st x h; exact Or.inl h
  | cons p ps ih =>
    intro st x h
    rw [runPages, List.foldl_cons] at h
    rcases ih _ x h with h1 | ⟨⟨page, hp, hx⟩, h2⟩
    · rcases foldl_sent_mem ourDid sendOk now p st x h1 with h3 | ⟨hm, h4⟩
      · exact Or.inl h3
      · exact Or.inr ⟨⟨p, List.mem_cons_self p ps, hm⟩, h4⟩
    · exact Or.inr ⟨⟨page, List.mem_cons_of_mem p hp, hx⟩, h2⟩

theorem runPages_noop (ourDid : Option String) (sendOk : String → Bool) (now : Nat)
    (pages : List (List Convo)) : ∀ (st : CycleState),
    (∀ page ∈ pages, ∀ c ∈ page, ∀ d : String, getOtherParticipantDid ourDid c = some d →
      isLastMessageFromOther ourDid c = true → sendOk c.id = true →
      ledgerGet st.ledger now (repliedKey d) = true) →
    runPages ourDid sendOk now st pages = st := by
  induction pages with
  | nil => intro st _; rfl
  | cons p ps ih =>
    intro st hcov
    have hp : p.foldl (processConvo ourDid sendOk now) st = st :=
      foldl_noop ourDid sendOk now p st (hcov p (List.mem_cons_self p ps))
    rw [runPages, List.foldl_cons, hp]
    exact ih st (fun page hpage => hcov page (List.mem_cons_of_mem p hpage))

theorem cycle_sent_mem (env : CycleEnv) (ourDid : Option String) (sendOk : String → Bool)
    (pages : List (List Convo)) (now : Nat) (store : Store) (x : Convo)
    (h : x ∈ (runDmReplyCycle env ourDid sendOk pages now store).sent) :
    (∃ page, page ∈ pages ∧ x ∈ page) ∧ isLastMessageFromOther ourDid x = true ∧
      sendOk x.id = true ∧ (getOtherParticipantDid ourDid x).isSome = true := by
  cases he : (getConfig store.config).enabled with
  | false => simp [runDmReplyCycle, he] at h
  | true =>
    by_cases hcred : env.bskyHandle = "" ∨ env.bskyAppPassword = ""
    · simp [runDmReplyCycle, he, hcred] at h
    · simp only [runDmReplyCycle, he, Bool.not_true, Bool.false_eq_true, if_false, hcred] at h
      rcases runPages_sent_mem ourDid sendOk now pages
        { ledger := store.ledger, sent := [], repliedCount := 0 } x h with h1 | h2
      · exact absurd h1 (List.not_mem_nil x)
      · exact h2

/-! ## The claims -/

/-- Claim C9: when no value is stored under the config key, `getConfig`
returns the default configuration with `enabled = false` and
`setupComplete = false`, and a dispatch cycle run against a fresh
(empty) store returns immediately: it lists zero pages of conversations
and sends no messages. -/
theorem fresh_store_cycle_is_noop :
    getConfig none =
      { welcomeMessage := DEFAULT_WELCOME, enabled := false, messageDelaySeconds := 0
        adminPasswordHash := none, setupComplete := false } ∧
    (getConfig none).enabled = false ∧ (getConfig none).setupComplete = false ∧
    ∀ (env : CycleEnv) (ourDid : Option String) (sendOk : String → Bool)
      (pages : List (List Convo)) (now : Nat),
      runDmReplyCycle env ourDid sendOk pages now { config := none, ledger := [] } =
        { ledger := [], sent := [], repliedCount := 0, pagesListed := 0 } := by
  refine ⟨rfl, rfl, rfl, ?_⟩
  intro env ourDid sendOk pages now
  rfl

/-- Claim C10: `isLastMessageFromOther` returns `false` for every
conversation without a last-message record, and whenever the client's
own DID is unset; consequently a conversation containing no messages is
never an element of a cycle's successful-send list. -/
theorem convo_without_messages_never_replied :
    (∀ (ourDid : Option String) (convo : Convo), convo.lastMessage = none →
      isLastMessageFromOther ourDid convo = false) ∧
    (∀ convo : Convo, isLastMessageFromOther none convo = false) ∧
    (∀ (env : CycleEnv) (ourDid : Option String) (sendOk : String → Bool)
      (pages : List (List Convo)) (now : Nat) (store : Store) (convo : Convo),
      convo.lastMessage = none →
      convo ∉ (runDmReplyCycle env ourDid sendOk pages now store).sent) := by
  refine ⟨?_, ?_, ?_⟩
  · intro ourDid convo hnone
    cases ourDid <;> simp [isLastMessageFromOther, hnone]
  · intro convo
    cases hc : convo.lastMessage <;> simp [isLastMessageFromOther, hc]
  · intro env ourDid sendOk pages now store convo hnone hmem
    obtain ⟨-, hl, -, -⟩ := cycle_sent_mem env ourDid sendOk pages now store convo hmem
    rw [show isLastMessageFromOther ourDid convo = false by
      cases ourDid <;> simp [isLastMessageFromOther, hnone]] at hl
    exact absurd hl (by simp)

/-- Witness for C10 at a concrete input: the message-less conversation
`convoNoMessages` is not replied to by a cycle that observes it. -/
theorem convo_without_messages_never_replied_witness :
    convoNoMessages ∉ (runDmReplyCycle envReady (some botDid) (fun _ => true)
      [[convoNoMessages]] 0 freshEnabledStore).sent :=
  convo_without_messages_never_replied.2.2 envReady (some botDid) (fun _ => true)
    [[convoNoMessages]] 0 freshEnabledStore convoNoMessages rfl

/-- Claim C5: a conversation whose last message's sender identifier
equals the bot's own account identifier never triggers a send: it is
never an element of the cycle's successful-send list, regardless of the
ledger state in `store`. -/
theorem no_send_when_last_message_from_bot (env : CycleEnv) (ourDid : Option String)
    (sendOk : String → Bool) (pages : List (List Convo)) (now : Nat) (store : Store)
    (convo : Convo) (od : String) (lm : ConvoLastMessage)
    (hod : ourDid = some od) (hlm : convo.lastMessage = some lm)
    (hsender : lm.senderDid = od) :
    convo ∉ (runDmReplyCycle env ourDid sendOk pages now store).sent := by
  intro hmem
  obtain ⟨-, hl, -, -⟩ := cycle_sent_mem env ourDid sendOk pages now store convo hmem
  subst hod
  simp [isLastMessageFromOther, hlm, hsender] at hl

/-- Witness for C5 at a concrete input: `convoFromBot` (last message
sent by the bot) is not replied to even though the ledger is empty. -/
theorem no_send_when_last_message_from_bot_witness :
    convoFromBot ∉ (runDmReplyCycle envReady (some botDid) (fun _ => true)
      [[convoFromBot]] 0 freshEnabledStore).sent :=
  no_send_when_last_message_from_bot envReady (some botDid) (fun _ => true)
    [[convoFromBot]] 0 freshEnabledStore convoFromBot botDid
    { id := "m3", text := "our reply", sentAt := "2026-01-03", senderDid := botDid }
    rfl rfl rfl

/-- Claim C4: with a fixed conversation list and a fixed per-conversation
send outcome, running the dispatch cycle twice in immediate succession
(same clock reading, ledger carried over from the first run, no new
inbound messages) produces zero successful sends in the second run; and
every correspondent successfully sent to in the first run has a live
ledger entry in the first run's final ledger when the second run
performs its per-correspondent read check. -/
theorem second_cycle_sends_nothing (env : CycleEnv) (ourDid : Option String)
    (sendOk : String → Bool) (pages : List (List Convo)) (now : Nat) (store : Store) :
    (runDmReplyCycle env ourDid sendOk pages now
      { config := store.config
        ledger := (runDmReplyCycle env ourDid sendOk pages now store).ledger }).sent = [] ∧
    ∀ c ∈ (runDmReplyCycle env ourDid sendOk pages now store).sent, ∀ d : String,
      getOtherParticipantDid ourDid c = some d →
      ledgerGet (runDmReplyCycle env ourDid sendOk pages now store).ledger now
        (repliedKey d) = true := by
  cases he : (getConfig store.config).enabled with
  | false =>
    constructor
    · simp [runDmReplyCycle, he]
    · intro c hc
      simp [runDmReplyCycle, he] at hc
  | true =>
    by_cases hcred : env.bskyHandle = "" ∨ env.bskyAppPassword = ""
    · constructor
      · simp [runDmReplyCycle, he, hcred]
      · intro c hc
        simp [runDmReplyCycle, he, hcred] at hc
    · have h1ledger : (runDmReplyCycle env ourDid sendOk pages now store).ledger =
          (runPages ourDid sendOk now
            { ledger := store.ledger, sent := [], repliedCount := 0 } pages).ledger := by
        simp [runDmReplyCycle, he, hcred]
      have h1sent : (runDmReplyCycle env ourDid sendOk pages now store).sent =
          (runPages ourDid sendOk now
            { ledger := store.ledger, sent := [], repliedCount := 0 } pages).sent := by
        simp [runDmReplyCycle, he, hcred]
      have hcov : ∀ page ∈ pages, ∀ c ∈ page, ∀ d : String,
          getOtherParticipantDid ourDid c = some d →
          isLastMessageFromOther ourDid c = true → sendOk c.id = true →
          ledgerGet (runPages ourDid sendOk now
            { ledger := store.ledger, sent := [], repliedCount := 0 } pages).ledger now
            (repliedKey d) = true := by
        intro page hp c hc d hg hl hs
        exact runPages_post ourDid sendOk now pages
          { ledger := store.ledger, sent := [], repliedCount := 0 } page c d hp hc hg hl hs
      constructor
      · have hnoop : runPages ourDid sendOk now
            { ledger := (runPages ourDid sendOk now
                { ledger := store.ledger, sent := [], repliedCount := 0 } pages).ledger
              sent := [], repliedCount := 0 } pages =
            { ledger := (runPages ourDid sendOk now
                { ledger := store.ledger, sent := [], repliedCount := 0 } pages).ledger
              sent := [], repliedCount := 0 } :=
          runPages_noop ourDid sendOk now pages _ (fun page hp c hc d hg hl hs =>
            hcov page hp c hc d hg hl hs)
        simp only [runDmReplyCycle, he, Bool.not_true, Bool.false_eq_true, if_false, hcred,
          h1ledger]
        rw [hnoop]
      · intro c hc d hg
        rw [h1sent] at hc
        rcases runPages_sent_mem ourDid sendOk now pages
            { ledger := store.ledger, sent := [], repliedCount := 0 } c hc with
          h1 | ⟨⟨page, hp, hx⟩, hl, hs, -⟩
        · exact absurd h1 (List.not_mem_nil c)
        · rw [h1ledger]
          exact hcov page hp c hx d hg hl hs

/-- Witness for C4 at a concrete input: after a first cycle over
`convoAlice` and `convoCarol`, an immediately repeated cycle over the
same two conversations sends nothing. -/
theorem second_cycle_sends_nothing_witness :
    (runDmReplyCycle envReady (some botDid) (fun _ => true) [[convoAlice, convoCarol]] 0
      { config := freshEnabledStore.config
        ledger := (runDmReplyCycle envReady (some botDid) (fun _ => true)
          [[convoAlice, convoCarol]] 0 freshEnabledStore).ledger }).sent = [] :=
  (second_cycle_sends_nothing envReady (some botDid) (fun _ => true)
    [[convoAlice, convoCarol]] 0 freshEnabledStore).1

/-- Claim C3: for a conversation that reaches the send step of the loop
(an other participant exists, the last message is from them, and no
live `replied:<did>` marker exists), the ledger entry with key
`replied:<did>` and a one-year TTL is written if and only if the send
reported success: on success the state is updated in place (entry
written, conversation recorded, `repliedCount` incremented) and the
entry is immediately live for the rest of the loop; on failure the
state — in particular the ledger — is left completely unchanged, so the
correspondent stays eligible for a future cycle. -/
theorem ledger_write_iff_send_success (ourDid : Option String) (sendOk : String → Bool)
    (now : Nat) (st : CycleState) (convo : Convo) (d : String)
    (hg : getOtherParticipantDid ourDid convo = some d)
    (hl : isLastMessageFromOther ourDid convo = true)
    (hnew : ledgerGet st.ledger now (repliedKey d) = false) :
    (sendOk convo.id = true →
      processConvo ourDid sendOk now st convo =
        { ledger := ledgerPut st.ledger (repliedKey d) (now + REPLIED_TTL)
          sent := st.sent ++ [convo]
          repliedCount := st.repliedCount + 1 } ∧
      ledgerGet (processConvo ourDid sendOk now st convo).ledger now (repliedKey d) = true) ∧
    (sendOk convo.id = false → processConvo ourDid sendOk now st convo = st) := by
  constructor
  · intro hs
    constructor
    · simp [processConvo, hg, hl, hnew, hs]
    · exact processConvo_post ourDid sendOk now st convo d hg hl hs
  · intro hs
    simp [processConvo, hg, hl, hnew, hs]

/-- Witness for C3 at a concrete input: processing `convoAlice` with an
empty ledger and a succeeding send writes exactly the
`replied:did:plc:alice` entry and records the send. -/
theorem ledger_write_iff_send_success_witness :
    processConvo (some botDid) (fun _ => true) 0
        { ledger := [], sent := [], repliedCount := 0 } convoAlice =
      { ledger := ledgerPut [] (repliedKey aliceDid) (0 + REPLIED_TTL)
        sent := [convoAlice], repliedCount := 1 } :=
  ((ledger_write_iff_send_success (some botDid) (fun _ => true) 0
    { ledger := [], sent := [], repliedCount := 0 } convoAlice aliceDid
    (by decide) (by decide) (by decide)).1 rfl).1

/-- Claim C1 (code bug): the source implements no per-cycle send cap.
`BotConfig` has no cap field and `runDmReplyCycle` counts
`repliedCount` without ever comparing it to a limit, even though the
repository's README promises "Max 10 replies per run" and the spec a
`perCycleSendCap`.  Evaluating the code on a cycle with two eligible
first-contact correspondents and every send succeeding: both are sent
to in the single cycle (so with a configured cap of N = 1 and M = 2
eligible correspondents the cycle performs 2 sends, not exactly N). -/
theorem cycle_sends_to_all_eligible_no_cap :
    getOtherParticipantDid (some botDid) convoAlice = some aliceDid ∧
    getOtherParticipantDid (some botDid) convoCarol = some carolDid ∧
    isLastMessageFromOther (some botDid) convoAlice = true ∧
    isLastMessageFromOther (some botDid) convoCarol = true ∧
    (runDmReplyCycle envReady (some botDid) (fun _ => true) [[convoAlice, convoCarol]] 0
      freshEnabledStore).repliedCount = 2 ∧
    (runDmReplyCycle envReady (some botDid) (fun _ => true) [[convoAlice, convoCarol]] 0
      freshEnabledStore).sent = [convoAlice, convoCarol] := by
  refine ⟨rfl, rfl, rfl, rfl, rfl, rfl⟩

/-- Claim C2 (code bug): `handleAdmin` dispatches `POST /api/setup`
before re-checking `setupComplete`, so the setup endpoint is still
accepted after setup has completed: an unauthenticated request (no
session cookie) with a fresh 12-character password succeeds and
overwrites the stored admin password hash. -/
theorem setup_endpoint_accepted_after_completion :
    (getConfig doneStore.config).setupComplete = true ∧
    setupAfterDoneReq.sessionToken = none ∧
    (handleAdmin sha256Model macModel 0 (some "secret") doneStore setupAfterDoneReq).1 =
      AdminResponse.jsonOk ∧
    (getConfig (handleAdmin sha256Model macModel 0 (some "secret") doneStore
      setupAfterDoneReq).2.config).adminPasswordHash = some (sha256Model "newpassword1") ∧
    (getConfig (handleAdmin sha256Model macModel 0 (some "secret") doneStore
      setupAfterDoneReq).2.config).adminPasswordHash ≠ doneConfig.adminPasswordHash := by
  exact ⟨rfl, rfl, rfl, rfl, by decide⟩

set_option maxRecDepth 100000 in
/-- Claim C6 counterexample: `sendMessage` trims the text before
truncating (`truncateMessage(text.trim())`), so the 1200-grapheme text
starting with a whitespace cluster is *not* sent as exactly its first
1000 grapheme clusters. -/
theorem truncation_counterexample :
    paddedText1200.length = 1200 ∧
    sendMessageText paddedText1200 ≠ paddedText1200.take 1000 := by
  constructor
  · simp [paddedText1200]
  · decide

/-- Claim C6 (amended): the message actually sent is
`truncateMessage(text.trim())`, hence always at most 1000 grapheme
clusters; and for a 1200-grapheme reply text with no leading or
trailing whitespace clusters (trimming is the identity) the sent
message is exactly the first 1000 grapheme clusters of the text. -/
theorem sent_text_truncated_after_trim :
    (∀ text : List Grapheme, (sendMessageText text).length ≤ DM_MAX_GRAPHEMES) ∧
    (∀ text : List Grapheme, trimGraphemes text = text → text.length = 1200 →
      sendMessageText text = text.take 1000) := by
  constructor
  · intro t
    unfold sendMessageText truncateMessage
    split
    · next h => exact h
    · simp [List.length_take]
  · intro t htrim hlen
    unfold sendMessageText truncateMessage
    rw [htrim]
    rw [if_neg (by rw [hlen]; decide)]
    rfl

/-- Witness for the amended C6 at a concrete input: the trimmed
1200-grapheme text `plainText1200` is sent as exactly its first 1000
grapheme clusters. -/
theorem sent_text_truncated_after_trim_witness :
    sendMessageText plainText1200 = plainText1200.take 1000 :=
  sent_text_truncated_after_trim.2 plainText1200
    (by
      unfold plainText1200 trimGraphemes
      rw [List.dropWhile_replicate, if_neg (by decide), List.reverse_replicate,
        List.dropWhile_replicate, if_neg (by decide), List.reverse_replicate])
    (by simp only [plainText1200, List.length_replicate])

/-- Claim C7: the delay persisted by the admin endpoints is always
clamped into `[0, 300]`: `clampDelay 1000 = 300`, `clampDelay (-5) = 0`,
`clampDelay` lands in `[0, 300]` for every integer input, and an
authenticated `POST /admin/api/config` submitting `messageDelaySeconds
= v` stores exactly `clampDelay v`. -/
theorem delay_always_clamped :
    clampDelay 1000 = 300 ∧ clampDelay (-5) = 0 ∧
    (∀ v : Int, 0 ≤ clampDelay v ∧ clampDelay v ≤ 300) ∧
    (∀ (hashFn : String → String) (mac : String → Int → Nat) (now : Int) (secret : String)
      (store : Store) (cfg : BotConfig) (tok : SessionToken) (v : Int),
      store.config = some cfg → cfg.setupComplete = true →
      verifySession mac tok secret now = true →
      (getConfig (handleAdmin hashFn mac now (some secret) store
        { path := "/api/config", method := "POST"
          body := { adminPassword := none, welcomeMessage := none, enabled := none
                    messageDelaySeconds := some v, password := none }
          sessionToken := some tok }).2.config).messageDelaySeconds = clampDelay v) := by
  refine ⟨by decide, by decide, ?_, ?_⟩
  · intro v
    unfold clampDelay MAX_DELAY_SECONDS
    exact ⟨le_min (by decide) (le_max_left 0 v), min_le_left _ _⟩
  · intro hashFn mac now secret store cfg tok v h1 h2 h3
    simp [handleAdmin, h1, getConfig, h2, h3]

/-- Witness for C7 at a concrete input: an authenticated config update
submitting delay 1000 stores `clampDelay 1000`. -/
theorem delay_always_clamped_witness :
    (getConfig (handleAdmin (fun s => s) (fun _ _ => 0) 0 (some "sec") doneStore
      { path := "/api/config", method := "POST"
        body := { adminPassword := none, welcomeMessage := none, enabled := none
                  messageDelaySeconds := some 1000, password := none }
        sessionToken := some (createSession (fun _ _ => 0) "sec" 0) }).2.config).messageDelaySeconds =
      clampDelay 1000 :=
  delay_always_clamped.2.2.2 (fun s => s) (fun _ _ => 0) 0 "sec" doneStore doneConfig
    (createSession (fun _ _ => 0) "sec" 0) 1000 rfl rfl (by decide)

/-- Claim C8: session verification fails for every token whose embedded
expiry is in the past (checked before the signature) and for every
token whose signature does not match the MAC of the payload under the
secret; and every token produced by `createSession` (expiry = issue
time + 7 days) verifies against the same secret as long as it has not
yet expired. -/
theorem session_verification (mac : String → Int → Nat) (secret : String)
    (token : SessionToken) (now issued : Int) :
    (token.exp < now → verifySession mac token secret now = false) ∧
    (mac secret token.exp ≠ token.sig → verifySession mac token secret now = false) ∧
    (createSession mac secret issued).exp = issued + SESSION_TTL_SEC ∧
    (now ≤ issued + SESSION_TTL_SEC →
      verifySession mac (createSession mac secret issued) secret now = true) := by
  refine ⟨?_, ?_, rfl, ?_⟩
  · intro h
    simp [verifySession, h]
  · intro h
    unfold verifySession
    split
    · rfl
    · simp [h]
  · intro h
    unfold verifySession createSession
    rw [if_neg (not_lt.mpr (by simpa using h))]
    simp

/-- Witness for C8 at concrete inputs: an expired token fails, and a
freshly issued unexpired token succeeds. -/
theorem session_verification_witness :
    verifySession (fun _ _ => 0) { exp := 0, sig := 0 } "s" 10 = false ∧
    verifySession (fun _ _ => 0) (createSession (fun _ _ => 0) "s" 0) "s" 100 = true :=
  ⟨(session_verification (fun _ _ => 0) "s" { exp := 0, sig := 0 } 10 0).1 (by decide),
   (session_verification (fun _ _ => 0) "s" { exp := 0, sig := 0 } 100 0).2.2.2 (by decide)⟩

end DmBot
